import Mathlib

/-!
Verification of the link-checker engine (`check-links.ts`, circuit-breaker
version) against its natural-language specification.  The engine's pure
decision logic is embedded shallowly: network I/O is represented by an
explicit environment value (`NetEnv`) that supplies the outcome of each
fallible step (a response value, a timeout abort, or another transport
error), and the per-record pipeline of `checkBatch` is a pure step function
over an explicit breaker state and row value.
-/

set_option maxHeartbeats 1000000
set_option linter.unnecessarySeqFocus false

namespace LinkChecker

/-! ## JavaScript string / truthiness helpers -/

/-- Does the character list `l` start with `sub`? -/
def listStartsWith : List Char → List Char → Bool
  | _, [] => true
  | [], _ :: _ => false
  | c :: cs, d :: ds => c == d && listStartsWith cs ds

/-- Does `sub` occur contiguously inside `l`?  (JS `String.prototype.includes`.) -/
def listHasSub : List Char → List Char → Bool
  | [], sub => sub.isEmpty
  | c :: rest, sub => listStartsWith (c :: rest) sub || listHasSub rest sub

/-- JS `s.includes(sub)`. -/
def jsIncludes (s sub : String) : Bool := listHasSub s.toList sub.toList

/-- JS `m || d` on an optional string field (`undefined` and `""` are falsy). -/
def jsOrStr (m : Option String) (d : String) : String :=
  match m with
  | none => d
  | some s => if s = "" then d else s

/-- JS `m || d` on an optional integer field (`undefined` and `0` are falsy). -/
def jsOrInt (m : Option Int) (d : Int) : Int :=
  match m with
  | none => d
  | some n => if n = 0 then d else n

/-- JS truthiness of an optional string (used for `if (stoken)` and the env vars). -/
def jsTruthy : Option String → Bool
  | none => false
  | some s => !(s == "")

/-- `[a-zA-Z0-9]` of the share-id regex. -/
def isAlnumAscii (c : Char) : Bool := c.isAlpha || c.isDigit

/-- First match of the regex `\/s\/([a-zA-Z0-9]+)` over the URL's characters:
the captured alphanumeric run after the first occurrence of `/s/` that is
followed by at least one alphanumeric character. -/
def findShareId : List Char → Option String
  | [] => none
  | '/' :: 's' :: '/' :: rest =>
    match rest.takeWhile isAlnumAscii with
    | [] => findShareId ('s' :: '/' :: rest)
    | run => some (String.mk run)
  | _ :: cs => findShareId cs

/-! ## Probe model (`checkLinkStatus` with `fetchWithTimeout`) -/

/-- A JavaScript exception escaping a network step: the abort raised by the
`fetchWithTimeout` timeout, or any other transport/parse error. -/
inductive JsError where
  | abortError : JsError
  | otherError : JsError
deriving DecidableEq

/-- Parsed body of the Quark token response (`tokenRes.json()`); absent JSON
fields are `none`. -/
structure TokenData where
  code : Option Int
  message : Option String
  stoken : Option String
deriving DecidableEq

/-- Parsed body of the Quark detail response: its `code` and `metadata._total`. -/
structure DetailData where
  code : Option Int
  total : Option Int
deriving DecidableEq

/-- Baidu redirect-probe response: HTTP status and the `Location` header. -/
structure BaiduResp where
  status : Nat
  location : Option String
deriving DecidableEq

/-- Outcomes supplied by the outside world for each fallible step of
`checkLinkStatus`: `new URL(url)`, the Quark token fetch+parse, the Quark
detail fetch+parse, and the Baidu fetch. -/
structure NetEnv where
  urlParse : Except JsError Unit
  tokenStep : Except JsError TokenData
  detailStep : Except JsError DetailData
  baiduStep : Except JsError BaiduResp

/-- Result type of `checkLinkStatus`: `valid` is JS `true`/`false`/`null`
(live / dead / inconclusive), `reason` the optional explanation. -/
structure CheckResult where
  valid : Option Bool
  reason : Option String
deriving DecidableEq

/-- Body of the `try` block of `checkLinkStatus`: provider dispatch by URL
substring, returning either a result or the JS exception that escaped. -/
def checkBody (url : String) (env : NetEnv) : Except JsError CheckResult :=
  if jsIncludes url "quark.cn" then
    match findShareId url.toList with
    | none => Except.ok ⟨some false, some "链接格式无效"⟩
    | some _ =>
      match env.urlParse with
      | Except.error e => Except.error e
      | Except.ok _ =>
        match env.tokenStep with
        | Except.error e => Except.error e
        | Except.ok td =>
          if td.code == some 41003 then Except.ok ⟨some false, some "分享已过期"⟩
          else if td.code == some 41006 then Except.ok ⟨some false, some "分享已取消"⟩
          else if td.code != some 0 then
            Except.ok ⟨some false, some (jsOrStr td.message "链接无效")⟩
          else if jsTruthy td.stoken then
            match env.detailStep with
            | Except.error e => Except.error e
            | Except.ok dd =>
              if dd.code == some 0 && jsOrInt dd.total 0 == 0 then
                Except.ok ⟨some false, some "文件已被删除"⟩
              else Except.ok ⟨some true, none⟩
          else Except.ok ⟨some true, none⟩
  else if jsIncludes url "pan.baidu.com" || jsIncludes url "yun.baidu.com" then
    match env.baiduStep with
    | Except.error e => Except.error e
    | Except.ok r =>
      let loc := jsOrStr r.location ""
      if r.status == 200 && loc == "" then Except.ok ⟨some false, some "分享已过期"⟩
      else if jsIncludes loc "error" then Except.ok ⟨some false, some "链接已失效"⟩
      else Except.ok ⟨some true, none⟩
  else if jsIncludes url "pan.xunlei.com" then Except.ok ⟨none, some "迅雷暂不支持检测"⟩
  else Except.ok ⟨none, some "不支持的网盘类型"⟩

/-- `checkLinkStatus`: the body wrapped in its `catch`, which converts an
abort (timeout) into inconclusive "检测超时" and any other exception into
inconclusive "检查出错". -/
def checkLinkStatus (url : String) (env : NetEnv) : CheckResult :=
  match checkBody url env with
  | Except.ok r => r
  | Except.error JsError.abortError => ⟨none, some "检测超时"⟩
  | Except.error JsError.otherError => ⟨none, some "检查出错"⟩

/-- `getPlatform`: URL-substring dispatch to a platform name. -/
def getPlatform (url : String) : Option String :=
  if jsIncludes url "quark.cn" then some "quark"
  else if jsIncludes url "pan.baidu.com" || jsIncludes url "yun.baidu.com" then some "baidu"
  else if jsIncludes url "pan.xunlei.com" then some "xunlei"
  else none

/-! ## Circuit breaker and per-record pipeline (`checkBatch`) -/

/-- `PLATFORM_ERROR_THRESHOLD`. -/
def PLATFORM_ERROR_THRESHOLD : Nat := 10

/-- Breaker state: the `platformErrorCounts` record (an association list over
its fixed keys) and the `skippedPlatforms` set (as a list). -/
structure Breaker where
  counts : List (String × Nat)
  skippedPlatforms : List String
deriving DecidableEq

/-- Initial module state: `{ quark: 0, baidu: 0 }` and an empty skipped set. -/
def initBreaker : Breaker := ⟨[("quark", 0), ("baidu", 0)], []⟩

/-- `platformErrorCounts[p] = n`, leaving all other keys untouched (no key is
ever added: assignment to an existing key only, as in the source where the
record is initialised with exactly its two keys). -/
def setCount (l : List (String × Nat)) (p : String) (n : Nat) : List (String × Nat) :=
  l.map (fun q => if q.1 = p then (p, n) else q)

/-- The inconclusive/exception bookkeeping: `if (platform && platform in
platformErrorCounts) { counts[p]++; if (counts[p] >= THRESHOLD &&
!skippedPlatforms.has(p)) skippedPlatforms.add(p) }`. -/
def bumpPlatform (st : Breaker) (platform : Option String) : Breaker :=
  match platform with
  | none => st
  | some p =>
    match st.counts.lookup p with
    | none => st
    | some c =>
      let c2 := c + 1
      let counts2 := setCount st.counts p c2
      let skipped2 :=
        if PLATFORM_ERROR_THRESHOLD ≤ c2 && !(st.skippedPlatforms.contains p) then
          p :: st.skippedPlatforms
        else st.skippedPlatforms
      ⟨counts2, skipped2⟩

/-- The definitive-verdict bookkeeping: `if (platform && platform in
platformErrorCounts) platformErrorCounts[platform] = 0`. -/
def resetPlatform (st : Breaker) (platform : Option String) : Breaker :=
  match platform with
  | none => st
  | some p =>
    if (st.counts.lookup p).isSome then ⟨setCount st.counts p 0, st.skippedPlatforms⟩
    else st

/-- Persisted fields of one link row: its status column and checked-timestamp
column (timestamps as abstract Nat instants). -/
structure Row where
  status : String
  lastChecked : Option Nat
deriving DecidableEq

/-- Per-record outcome tags returned by the `checkBatch` tasks. -/
inductive Outcome where
  | valid : Outcome
  | expired : Outcome
  | preserved : Outcome
  | skipped : Outcome
  | error : Outcome
deriving DecidableEq

/-- Result of one record's task: breaker state after the task, the persisted
row after the task, the outcome tag, and whether `checkLinkStatus` was
invoked at all. -/
structure StepOut where
  st : Breaker
  row : Row
  outcome : Outcome
  probed : Bool
deriving DecidableEq

/-- The `try`/`catch` part of one task, after the skip gate: `writeFails`
models the store update throwing (the only exception source inside the try,
since `checkLinkStatus` never throws); on a throw nothing is persisted, the
catch bumps the platform counter and tags the record `error`. -/
def stepChecked (st : Breaker) (platform : Option String) (probeValid : Option Bool)
    (writeFails : Bool) (row : Row) (now : Nat) : StepOut :=
  if writeFails then ⟨bumpPlatform st platform, row, Outcome.error, true⟩
  else
    match probeValid with
    | some true => ⟨resetPlatform st platform, ⟨"valid", some now⟩, Outcome.valid, true⟩
    | some false => ⟨resetPlatform st platform, ⟨"expired", some now⟩, Outcome.expired, true⟩
    | none => ⟨bumpPlatform st platform, ⟨row.status, some now⟩, Outcome.preserved, true⟩

/-- One record's task in `checkBatch`: the tripped-platform gate, then the
probe/update pipeline. -/
def stepTask (st : Breaker) (platform : Option String) (probeValid : Option Bool)
    (writeFails : Bool) (row : Row) (now : Nat) : StepOut :=
  match platform with
  | some p =>
    if st.skippedPlatforms.contains p then ⟨st, row, Outcome.skipped, false⟩
    else stepChecked st (some p) probeValid writeFails row now
  | none => stepChecked st none probeValid writeFails row now

/-- A full record task driven by the real probe: platform dispatch by
`getPlatform`, probe verdict from `checkLinkStatus`. -/
def processLink (st : Breaker) (url : String) (env : NetEnv) (writeFails : Bool)
    (row : Row) (now : Nat) : StepOut :=
  stepTask st (getPlatform url) (checkLinkStatus url env).valid writeFails row now

/-- The gate in front of the pipeline does not apply when the platform is
absent; as a Bool so instances of it evaluate by `decide`/`rfl`. -/
def notSkipped (st : Breaker) (platform : Option String) : Bool :=
  match platform with
  | none => true
  | some p => !(st.skippedPlatforms.contains p)

/-- Run-level outcome counters of `main`. -/
structure Tally where
  valid : Nat
  expired : Nat
  preserved : Nat
  skipped : Nat
  errors : Nat
deriving DecidableEq

/-- The per-result counting loop of `main`. -/
def tallyAdd (t : Tally) : Outcome → Tally
  | Outcome.valid => ⟨t.valid + 1, t.expired, t.preserved, t.skipped, t.errors⟩
  | Outcome.expired => ⟨t.valid, t.expired + 1, t.preserved, t.skipped, t.errors⟩
  | Outcome.preserved => ⟨t.valid, t.expired, t.preserved + 1, t.skipped, t.errors⟩
  | Outcome.skipped => ⟨t.valid, t.expired, t.preserved, t.skipped + 1, t.errors⟩
  | Outcome.error => ⟨t.valid, t.expired, t.preserved, t.skipped, t.errors + 1⟩

/-! ## Batch scheduler and run startup (`main`) -/

/-- `MAX_LINKS_PER_RUN`. -/
def MAX_LINKS_PER_RUN : Nat := 15000

/-- `PAGE_SIZE` of the paged source reads. -/
def PAGE_SIZE : Nat := 1000

/-- One scheduler candidate as pushed onto `allLinks` (only the fields the
scheduler inspects; the per-source field names are carried by `table`). -/
structure LinkRec where
  id : String
  url : String
  table : String
  lastChecked : Option Nat
deriving DecidableEq

/-- One page returned by a source: a read error or a list of rows. -/
inductive PageRes where
  | err : PageRes
  | page : List LinkRec → PageRes

/-- The inner `for (const row of data)` loop: append rows until the run cap
is reached. -/
def pushRows (cap : Nat) : List LinkRec → List LinkRec → List LinkRec
  | acc, [] => acc
  | acc, r :: rs => if cap ≤ acc.length then acc else pushRows cap (acc ++ [r]) rs

/-- The paged `while (hasMore && allLinks.length < MAX_LINKS_PER_RUN)` loop of
one source: a page error is logged and stops this source (`break`), an empty
page stops it, a short page clears `hasMore`.  Returns the accumulated rows
and whether a read error was logged. -/
def readSourceE (cap : Nat) : List PageRes → List LinkRec → List LinkRec × Bool
  | [], acc => (acc, false)
  | p :: rest, acc =>
    if acc.length < cap then
      match p with
      | PageRes.err => (acc, true)
      | PageRes.page rows =>
        if rows.length = 0 then (acc, false)
        else if rows.length = PAGE_SIZE then readSourceE cap rest (pushRows cap acc rows)
        else (pushRows cap acc rows, false)
    else (acc, false)

/-- The outer `for (const table of TABLES)` loop: fold every configured
source's pages into `allLinks`, OR-ing the logged-error flags. -/
def collectE (sources : List (List PageRes)) (cap : Nat) : List LinkRec × Bool :=
  sources.foldl (fun st s => let r := readSourceE cap s st.1; (r.1, st.2 || r.2)) ([], false)

/-- All candidates gathered from the configured sources (capped during
collection exactly as the source loops cap them). -/
def collectRows (sources : List (List PageRes)) (cap : Nat) : List LinkRec :=
  (collectE sources cap).1

/-- The staleness comparator of `allLinks.sort` as a non-strict order:
`staleLeB a b` iff the comparator returns a non-positive number on `(a, b)`
(null sorts before non-null, non-nulls ascending by timestamp). -/
def staleLeB : Option Nat → Option Nat → Bool
  | none, _ => true
  | some _, none => false
  | some x, some y => x ≤ y

/-- The staleness order on scheduler candidates. -/
def staleLe (a b : LinkRec) : Prop := staleLeB a.lastChecked b.lastChecked = true

instance : DecidableRel staleLe :=
  fun a b => inferInstanceAs (Decidable (staleLeB a.lastChecked b.lastChecked = true))

instance : IsTotal LinkRec staleLe where
  total a b := by
    unfold staleLe staleLeB
    rcases a.lastChecked with _ | x <;> rcases b.lastChecked with _ | y <;> simp <;> omega

instance : IsTrans LinkRec staleLe where
  trans a b c := by
    unfold staleLe staleLeB
    rcases a.lastChecked with _ | x <;> rcases b.lastChecked with _ | y <;>
      rcases c.lastChecked with _ | z <;> simp <;> omega

/-- The scheduler's final work queue (`toCheck`): the collected candidates,
globally re-sorted by staleness, truncated to the run cap. -/
def buildQueue (sources : List (List PageRes)) (cap : Nat) : List LinkRec :=
  (List.insertionSort staleLe (collectRows sources cap)).take cap

/-- Observable outcome of one process invocation: final exit code, the work
queue that was built (empty when startup aborts), and whether a source read
error was logged. -/
structure RunOutcome where
  exitCode : Nat
  queue : List LinkRec
  loggedReadError : Bool
deriving DecidableEq

/-- The whole process around `main`: the module-level configuration check
(`if (!SUPABASE_URL || !SUPABASE_SERVICE_KEY) process.exit(1)`) runs before
any work; afterwards `main` contains no `process.exit` at all and
`main().catch(console.error)` swallows any rejection, so the process
terminates with exit code 0 whatever the per-record and per-source
outcomes. -/
def runProcess (supabaseUrl supabaseServiceKey : Option String)
    (sources : List (List PageRes)) (cap : Nat) : RunOutcome :=
  if !(jsTruthy supabaseUrl) || !(jsTruthy supabaseServiceKey) then ⟨1, [], false⟩
  else ⟨0, buildQueue sources cap, (collectE sources cap).2⟩

/-! ## Statement abbreviations for the larger claims -/

/-- What the verdict applier does with each probe verdict: inconclusive
leaves `status` alone and writes only the checked timestamp; live and dead
always set `status` (to `"valid"` resp. `"expired"`) besides the
timestamp. -/
def applierClaim (st : Breaker) (platform : Option String) (row : Row) (now : Nat) : Prop :=
  ((stepTask st platform none false row now).row.status = row.status
    ∧ (stepTask st platform none false row now).row.lastChecked = some now)
  ∧ ((stepTask st platform (some true) false row now).row.status = "valid"
    ∧ (stepTask st platform (some true) false row now).row.lastChecked = some now)
  ∧ ((stepTask st platform (some false) false row now).row.status = "expired"
    ∧ (stepTask st platform (some false) false row now).row.lastChecked = some now)

/-- The breaker state machine for a provider `p` carrying a counter value
`c`: tripped means skip untouched without probing; otherwise a definitive
verdict resets the counter, an inconclusive verdict or a pipeline exception
increments it and trips the provider when the threshold is reached; and a
tripped provider stays tripped across every later task. -/
def breakerClaim (st : Breaker) (p : String) (c : Nat) (row : Row) (now : Nat) : Prop :=
  (∀ pv wf, st.skippedPlatforms.contains p = true →
      stepTask st (some p) pv wf row now = ⟨st, row, Outcome.skipped, false⟩)
  ∧ (st.skippedPlatforms.contains p = false →
      (∀ b, (stepTask st (some p) (some b) false row now).st.counts.lookup p = some 0)
      ∧ ((stepTask st (some p) none false row now).st.counts.lookup p = some (c + 1))
      ∧ (∀ pv, (stepTask st (some p) pv true row now).st.counts.lookup p = some (c + 1))
      ∧ (PLATFORM_ERROR_THRESHOLD ≤ c + 1 →
          (stepTask st (some p) none false row now).st.skippedPlatforms.contains p = true)
      ∧ (∀ pv, PLATFORM_ERROR_THRESHOLD ≤ c + 1 →
          (stepTask st (some p) pv true row now).st.skippedPlatforms.contains p = true))
  ∧ (∀ q pv wf row2 now2, st.skippedPlatforms.contains p = true →
      (stepTask st q pv wf row2 now2).st.skippedPlatforms.contains p = true)

/-- What the batch scheduler guarantees about its final work queue: it is a
permutation of all configured sources' collected candidates, its length never
exceeds the run cap, and it is globally in staleness order — never-checked
records (null timestamp) all precede checked ones, and checked ones ascend by
timestamp. -/
def schedulerClaim (sources : List (List PageRes)) (cap : Nat) : Prop :=
  (buildQueue sources cap).Perm (collectRows sources cap)
  ∧ (buildQueue sources cap).length ≤ cap
  ∧ List.Pairwise staleLe (buildQueue sources cap)
  ∧ (∀ (i j : Fin (buildQueue sources cap).length), i < j →
      ((buildQueue sources cap).get j).lastChecked = none →
      ((buildQueue sources cap).get i).lastChecked = none)
  ∧ (∀ (i j : Fin (buildQueue sources cap).length) (a b : Nat), i < j →
      ((buildQueue sources cap).get i).lastChecked = some a →
      ((buildQueue sources cap).get j).lastChecked = some b → a ≤ b)

/-! ## Sample values used by witnesses and counterexamples -/

/-- A Quark share URL whose share id parses as `abc123`. -/
def sampleQuarkUrl : String := "https://pan.quark.cn/s/abc123"

/-- A Baidu share URL. -/
def sampleBaiduUrl : String := "https://pan.baidu.com/s/1xyz"

/-- A Xunlei share URL (platform matched, probe unimplemented). -/
def sampleXunleiUrl : String := "https://pan.xunlei.com/s/xyz"

/-- An environment in which every network step succeeds with neutral data. -/
def sampleEnvOk : NetEnv :=
  ⟨Except.ok (), Except.ok ⟨some 0, none, none⟩, Except.ok ⟨some 0, some 3⟩,
    Except.ok ⟨302, some "https://pan.baidu.com/share/init"⟩⟩

/-- A token response that parsed but carries no `code` field at all. -/
def sampleEnvNoCode : NetEnv :=
  ⟨Except.ok (), Except.ok ⟨none, none, none⟩, Except.ok ⟨none, none⟩, Except.ok ⟨200, none⟩⟩

/-- The Quark token fetch fails with a non-abort transport error. -/
def sampleEnvTokenDown : NetEnv :=
  ⟨Except.ok (), Except.error JsError.otherError, Except.ok ⟨none, none⟩, Except.ok ⟨200, none⟩⟩

/-- The Baidu fetch hits the `fetchWithTimeout` abort. -/
def sampleEnvBaiduTimeout : NetEnv :=
  ⟨Except.ok (), Except.ok ⟨some 0, none, none⟩, Except.ok ⟨some 0, none⟩,
    Except.error JsError.abortError⟩

/-- A Baidu response whose `Location` header signals an error page. -/
def sampleBaiduErrResp : BaiduResp := ⟨302, some "https://pan.baidu.com/error/page"⟩

/-- Environment delivering `sampleBaiduErrResp` for the Baidu step. -/
def sampleEnvBaiduError : NetEnv :=
  ⟨Except.ok (), Except.ok ⟨some 0, none, none⟩, Except.ok ⟨some 0, none⟩,
    Except.ok sampleBaiduErrResp⟩

/-- A token response denying access with a provider message and code 99. -/
def sampleTokenDenied : TokenData := ⟨some 99, some "需要提取码", none⟩

/-- Environment delivering `sampleTokenDenied` for the token step. -/
def sampleEnvDenied : NetEnv :=
  ⟨Except.ok (), Except.ok sampleTokenDenied, Except.ok ⟨none, none⟩, Except.ok ⟨200, none⟩⟩

/-- A persisted row with a previously definitive status. -/
def sampleRow : Row := ⟨"valid", some 1⟩

/-- Two one-page sources: one checked record and one never-checked record. -/
def sampleSources : List (List PageRes) :=
  [[PageRes.page [⟨"a", "u1", "short_links", some 5⟩]],
   [PageRes.page [⟨"b", "u2", "resources", none⟩]]]

/-! ## Helper lemmas -/

theorem lookup_setCount_self (l : List (String × Nat)) (p : String) (n c : Nat)
    (h : l.lookup p = some c) : (setCount l p n).lookup p = some n := by
  induction l with
  | nil => simp [List.lookup] at h
  | cons q t ih =>
    rcases q with ⟨a, b⟩
    by_cases hap : p = a
    · subst hap
      simp only [setCount, List.map_cons]
      simp [List.lookup]
    · have hbeq : (p == a) = false := by simp [hap]
      rw [List.lookup, hbeq] at h
      simp only [setCount, List.map]
      rw [if_neg (fun hh => hap hh.symm), List.lookup, hbeq]
      exact ih h

theorem bump_lookup (st : Breaker) (p : String) (c : Nat)
    (hc : st.counts.lookup p = some c) :
    (bumpPlatform st (some p)).counts.lookup p = some (c + 1) := by
  simp only [bumpPlatform, hc]
  exact lookup_setCount_self _ _ _ _ hc

theorem bump_trips (st : Breaker) (p : String) (c : Nat)
    (hc : st.counts.lookup p = some c)
    (hns : st.skippedPlatforms.contains p = false)
    (h10 : PLATFORM_ERROR_THRESHOLD ≤ c + 1) :
    (bumpPlatform st (some p)).skippedPlatforms.contains p = true := by
  have hmem : p ∉ st.skippedPlatforms := by simpa using hns
  simp [bumpPlatform, hc, h10, hmem]

theorem bump_skipped_mono (st : Breaker) (platform : Option String) (p : String)
    (h : st.skippedPlatforms.contains p = true) :
    (bumpPlatform st platform).skippedPlatforms.contains p = true := by
  rcases platform with _ | q
  · exact h
  · rcases hc : st.counts.lookup q with _ | c
    · simp only [bumpPlatform, hc]
      exact h
    · simp only [bumpPlatform, hc]
      split
      · simp only [List.contains_cons, Bool.or_eq_true]
        exact Or.inr h
      · exact h

theorem reset_skipped_eq (st : Breaker) (platform : Option String) :
    (resetPlatform st platform).skippedPlatforms = st.skippedPlatforms := by
  rcases platform with _ | q
  · rfl
  · simp only [resetPlatform]
    split <;> rfl

theorem reset_lookup (st : Breaker) (p : String) (c : Nat)
    (hc : st.counts.lookup p = some c) :
    (resetPlatform st (some p)).counts.lookup p = some 0 := by
  simp only [resetPlatform, hc, Option.isSome_some, if_pos]
  exact lookup_setCount_self _ _ _ _ hc

theorem stepChecked_skipped_mono (st : Breaker) (platform : Option String)
    (pv : Option Bool) (wf : Bool) (row : Row) (now : Nat) (p : String)
    (h : st.skippedPlatforms.contains p = true) :
    (stepChecked st platform pv wf row now).st.skippedPlatforms.contains p = true := by
  unfold stepChecked
  cases wf
  · rcases pv with _ | b
    · simpa using bump_skipped_mono st platform p h
    · cases b <;> simpa [reset_skipped_eq] using h
  · simpa using bump_skipped_mono st platform p h

/-! ## Claim theorems -/

/-- Claim C1: for every record processed in a run (one whose platform is not
tripped, with the store write succeeding), an inconclusive probe verdict
leaves the persisted `status` field unchanged and writes only the checked
timestamp, while a live verdict always sets `status` to `"valid"` and a dead
verdict always sets it to `"expired"`. -/
theorem claim1_verdict_applier (st : Breaker) (platform : Option String) (row : Row) (now : Nat)
    (h : notSkipped st platform = true) : applierClaim st platform row now := by
  have hred : ∀ pv : Option Bool,
      stepTask st platform pv false row now = stepChecked st platform pv false row now := by
    intro pv
    rcases platform with _ | p
    · rfl
    · have hm : p ∉ st.skippedPlatforms := by
        simpa [notSkipped] using h
      simp [stepTask, hm]
  refine ⟨⟨?_, ?_⟩, ⟨?_, ?_⟩, ⟨?_, ?_⟩⟩ <;> rw [hred] <;> simp [stepChecked]

theorem claim1_verdict_applier_witness :
    notSkipped initBreaker (some "baidu") = true
      ∧ applierClaim initBreaker (some "baidu") ⟨"valid", some 1⟩ 9 :=
  ⟨by decide, claim1_verdict_applier initBreaker (some "baidu") ⟨"valid", some 1⟩ 9 (by decide)⟩

/-- Claim C2: the per-provider breaker state machine — a definitive verdict
resets the provider's consecutive-inconclusive counter to 0, an inconclusive
verdict or a pipeline exception increments it, reaching the threshold
(default 10) on a not-yet-tripped provider trips it, and once tripped every
later record of that provider is recorded as skipped without invoking the
probe, for the rest of the run. -/
theorem claim2_circuit_breaker (st : Breaker) (p : String) (c : Nat) (row : Row) (now : Nat)
    (hc : st.counts.lookup p = some c) : breakerClaim st p c row now := by
  refine ⟨?_, ?_, ?_⟩
  · intro pv wf h
    have hm : p ∈ st.skippedPlatforms := by simpa using h
    simp [stepTask, hm]
  · intro hns
    have hstep : ∀ pv wf,
        stepTask st (some p) pv wf row now = stepChecked st (some p) pv wf row now := by
      intro pv wf
      have hm : p ∉ st.skippedPlatforms := by simpa using hns
      simp [stepTask, hm]
    refine ⟨?_, ?_, ?_, ?_, ?_⟩
    · intro b
      rw [hstep]
      cases b <;> simpa [stepChecked] using reset_lookup st p c hc
    · rw [hstep]
      simpa [stepChecked] using bump_lookup st p c hc
    · intro pv
      rw [hstep]
      simpa [stepChecked] using bump_lookup st p c hc
    · intro h10
      rw [hstep]
      simpa [stepChecked] using bump_trips st p c hc hns h10
    · intro pv h10
      rw [hstep]
      simpa [stepChecked] using bump_trips st p c hc hns h10
  · intro q pv wf row2 now2 h
    rcases q with _ | q2
    · simpa [stepTask] using stepChecked_skipped_mono st none pv wf row2 now2 p h
    · by_cases h2 : st.skippedPlatforms.contains q2 = true
      · have hm2 : q2 ∈ st.skippedPlatforms := by simpa using h2
        have hmp : p ∈ st.skippedPlatforms := by simpa using h
        simp [stepTask, hm2, hmp]
      · have hm2 : q2 ∉ st.skippedPlatforms := by simpa using h2
        have hred : stepTask st (some q2) pv wf row2 now2
            = stepChecked st (some q2) pv wf row2 now2 := by
          simp [stepTask, hm2]
        rw [hred]
        exact stepChecked_skipped_mono st (some q2) pv wf row2 now2 p h

theorem claim2_circuit_breaker_witness :
    (⟨[("quark", 9), ("baidu", 0)], []⟩ : Breaker).counts.lookup "quark" = some 9
      ∧ breakerClaim ⟨[("quark", 9), ("baidu", 0)], []⟩ "quark" 9 ⟨"valid", some 1⟩ 3 :=
  ⟨by decide,
    claim2_circuit_breaker ⟨[("quark", 9), ("baidu", 0)], []⟩ "quark" 9 ⟨"valid", some 1⟩ 3
      (by decide)⟩

/-- Claim C3: for every record processed through the probe pipeline (its
platform not tripped, store write succeeding), the persisted checked
timestamp is set to the processing time whatever the probe verdict (live,
dead, or inconclusive). -/
theorem claim3_lastChecked_always (st : Breaker) (platform : Option String) (pv : Option Bool)
    (row : Row) (now : Nat) (h : notSkipped st platform = true) :
    (stepTask st platform pv false row now).row.lastChecked = some now := by
  have hred : stepTask st platform pv false row now = stepChecked st platform pv false row now := by
    rcases platform with _ | p
    · rfl
    · have hm : p ∉ st.skippedPlatforms := by
        simpa [notSkipped] using h
      simp [stepTask, hm]
  rw [hred]
  rcases pv with _ | b
  · simp [stepChecked]
  · cases b <;> simp [stepChecked]

theorem claim3_lastChecked_always_witness :
    notSkipped initBreaker (some "quark") = true
      ∧ (stepTask initBreaker (some "quark") (some true) false ⟨"unchecked", none⟩ 7).row.lastChecked
        = some 7 :=
  ⟨by decide,
    claim3_lastChecked_always initBreaker (some "quark") (some true) ⟨"unchecked", none⟩ 7
      (by decide)⟩

/-- Claim C10: a record whose provider is already tripped when its task
starts is answered without probing and without any store write — the breaker
state and the persisted row are returned untouched, the probe-invoked flag is
false, and the outcome feeds only the skipped counter of the run tally. -/
theorem claim10_skip_frame (st : Breaker) (p : String) (pv : Option Bool) (wf : Bool)
    (row : Row) (now : Nat) (t : Tally)
    (h : st.skippedPlatforms.contains p = true) :
    stepTask st (some p) pv wf row now = ⟨st, row, Outcome.skipped, false⟩
      ∧ tallyAdd t Outcome.skipped
        = ⟨t.valid, t.expired, t.preserved, t.skipped + 1, t.errors⟩ := by
  constructor
  · have hm : p ∈ st.skippedPlatforms := by simpa using h
    simp [stepTask, hm]
  · rfl

theorem claim10_skip_frame_witness :
    (⟨[("quark", 10), ("baidu", 0)], ["quark"]⟩ : Breaker).skippedPlatforms.contains "quark" = true
      ∧ (stepTask ⟨[("quark", 10), ("baidu", 0)], ["quark"]⟩ (some "quark") (some true) false
          ⟨"valid", some 2⟩ 8
          = ⟨⟨[("quark", 10), ("baidu", 0)], ["quark"]⟩, ⟨"valid", some 2⟩, Outcome.skipped, false⟩
        ∧ tallyAdd ⟨1, 2, 3, 4, 5⟩ Outcome.skipped = ⟨1, 2, 3, 5, 5⟩) :=
  ⟨by decide,
    claim10_skip_frame ⟨[("quark", 10), ("baidu", 0)], ["quark"]⟩ "quark" (some true) false
      ⟨"valid", some 2⟩ 8 ⟨1, 2, 3, 4, 5⟩ (by decide)⟩

theorem pushRows_length_le (cap : Nat) (rows acc : List LinkRec) (h : acc.length ≤ cap) :
    (pushRows cap acc rows).length ≤ cap := by
  induction rows generalizing acc with
  | nil => simpa [pushRows] using h
  | cons r rs ih =>
    by_cases hc : cap ≤ acc.length
    · simpa [pushRows, hc] using h
    · have hlt : acc.length < cap := Nat.lt_of_not_le hc
      simp only [pushRows, if_neg hc]
      exact ih (acc ++ [r]) (by simp; omega)

theorem readSourceE_length_le (cap : Nat) (pages : List PageRes) (acc : List LinkRec)
    (h : acc.length ≤ cap) : (readSourceE cap pages acc).1.length ≤ cap := by
  induction pages generalizing acc with
  | nil => simpa [readSourceE] using h
  | cons p rest ih =>
    by_cases hlt : acc.length < cap
    · rcases p with _ | rows
      · simpa [readSourceE, hlt] using h
      · simp only [readSourceE, if_pos hlt]
        by_cases hz : rows.length = 0
        · simpa [hz] using h
        · rw [if_neg hz]
          by_cases hps : rows.length = PAGE_SIZE
          · rw [if_pos hps]
            exact ih (pushRows cap acc rows) (pushRows_length_le cap rows acc h)
          · rw [if_neg hps]
            exact pushRows_length_le cap rows acc h
    · simpa [readSourceE, hlt] using h

theorem collectRows_length_le (sources : List (List PageRes)) (cap : Nat) :
    (collectRows sources cap).length ≤ cap := by
  have main : ∀ (ss : List (List PageRes)) (st : List LinkRec × Bool), st.1.length ≤ cap →
      (ss.foldl (fun st s => let r := readSourceE cap s st.1; (r.1, st.2 || r.2)) st).1.length
        ≤ cap := by
    intro ss
    induction ss with
    | nil => intro st h; simpa using h
    | cons s rest ih =>
      intro st h
      exact ih ((readSourceE cap s st.1).1, st.2 || (readSourceE cap s st.1).2)
        (readSourceE_length_le cap s st.1 h)
  simpa [collectRows, collectE] using main sources ([], false) (by simp)

theorem getPlatform_xunlei (url : String) (hp : getPlatform url = some "xunlei") :
    jsIncludes url "quark.cn" = false
      ∧ (jsIncludes url "pan.baidu.com" || jsIncludes url "yun.baidu.com") = false
      ∧ jsIncludes url "pan.xunlei.com" = true := by
  unfold getPlatform at hp
  by_cases h1 : jsIncludes url "quark.cn" = true
  · rw [if_pos h1] at hp
    simp at hp
  · rw [Bool.not_eq_true] at h1
    rw [if_neg (by simp [h1])] at hp
    by_cases h2 : (jsIncludes url "pan.baidu.com" || jsIncludes url "yun.baidu.com") = true
    · rw [if_pos h2] at hp
      simp at hp
    · rw [Bool.not_eq_true] at h2
      rw [if_neg (by simp [h2])] at hp
      by_cases h3 : jsIncludes url "pan.xunlei.com" = true
      · exact ⟨h1, h2, h3⟩
      · rw [Bool.not_eq_true] at h3
        rw [if_neg (by simp [h3])] at hp
        simp at hp

/-- Claim C4: the scheduler's final work queue is the merge of all configured
sources' collected candidates, globally sorted by staleness (null
last-checked before any non-null, then ascending by timestamp), and its
length never exceeds the run cap. -/
theorem claim4_scheduler (sources : List (List PageRes)) (cap : Nat) :
    schedulerClaim sources cap := by
  have hlen : (collectRows sources cap).length ≤ cap := collectRows_length_le sources cap
  have hslen : (List.insertionSort staleLe (collectRows sources cap)).length ≤ cap := by
    rw [List.length_insertionSort]
    exact hlen
  have hq : buildQueue sources cap = List.insertionSort staleLe (collectRows sources cap) := by
    unfold buildQueue
    exact List.take_of_length_le hslen
  have hpair : List.Pairwise staleLe (buildQueue sources cap) := by
    rw [hq]
    exact List.sorted_insertionSort staleLe (collectRows sources cap)
  refine ⟨?_, ?_, hpair, ?_, ?_⟩
  · rw [hq]
    exact List.perm_insertionSort staleLe (collectRows sources cap)
  · rw [hq]
    exact hslen
  · intro i j hij hj
    have hr := List.pairwise_iff_get.mp hpair i j hij
    unfold staleLe at hr
    rcases hgi : ((buildQueue sources cap).get i).lastChecked with _ | x
    · rfl
    · rw [hgi, hj] at hr
      simp [staleLeB] at hr
  · intro i j a b hij hi hjv
    have hr := List.pairwise_iff_get.mp hpair i j hij
    unfold staleLe at hr
    rw [hi, hjv] at hr
    simpa [staleLeB] using hr

theorem claim4_scheduler_witness :
    schedulerClaim sampleSources MAX_LINKS_PER_RUN
      ∧ buildQueue sampleSources MAX_LINKS_PER_RUN
        = [⟨"b", "u2", "resources", none⟩, ⟨"a", "u1", "short_links", some 5⟩] :=
  ⟨claim4_scheduler sampleSources MAX_LINKS_PER_RUN, by decide⟩

/-- Claim C5: the probe never lets an exception escape its boundary — every
transport or parsing failure raised inside the body is caught and converted
into an inconclusive verdict with an explanatory reason, and the timeout
abort of the bounded network call specifically yields the inconclusive
timeout result instead of a crash. -/
theorem claim5_probe_catches (url : String) (env : NetEnv) (e : JsError)
    (h : checkBody url env = Except.error e) :
    (checkLinkStatus url env).valid = none
      ∧ (checkLinkStatus url env).reason ≠ none
      ∧ (e = JsError.abortError → checkLinkStatus url env = ⟨none, some "检测超时"⟩) := by
  unfold checkLinkStatus
  rw [h]
  cases e <;> simp

theorem claim5_probe_catches_witness :
    checkBody sampleBaiduUrl sampleEnvBaiduTimeout = Except.error JsError.abortError
      ∧ ((checkLinkStatus sampleBaiduUrl sampleEnvBaiduTimeout).valid = none
        ∧ (checkLinkStatus sampleBaiduUrl sampleEnvBaiduTimeout).reason ≠ none
        ∧ (JsError.abortError = JsError.abortError →
            checkLinkStatus sampleBaiduUrl sampleEnvBaiduTimeout = ⟨none, some "检测超时"⟩)) :=
  ⟨rfl, claim5_probe_catches sampleBaiduUrl sampleEnvBaiduTimeout JsError.abortError rfl⟩

/-- Claim C6 counterexample: a Quark token response that parsed but carries
no `code` field at all produces a dead verdict with the fallback provider
message, not the inconclusive verdict the claim asserts. -/
theorem claim6_counterexample :
    checkLinkStatus sampleQuarkUrl sampleEnvNoCode = ⟨some false, some "链接无效"⟩
      ∧ (checkLinkStatus sampleQuarkUrl sampleEnvNoCode).valid ≠ none :=
  ⟨by decide, by decide⟩

/-- Claim C6 (amended): for a Quark URL that reaches the token step, any
token code other than 0 (success), 41003 (expired) and 41006 (revoked) —
including an entirely absent code — yields a dead verdict carrying the
provider's message, with "链接无效" as the fallback; an absent code is dead,
not inconclusive, because the strict test `code !== 0` holds of an absent
field. -/
theorem claim6_amended (url : String) (env : NetEnv) (pid : String) (td : TokenData)
    (hq : jsIncludes url "quark.cn" = true)
    (hs : findShareId url.toList = some pid)
    (hu : env.urlParse = Except.ok ())
    (ht : env.tokenStep = Except.ok td)
    (h1 : td.code ≠ some 41003)
    (h2 : td.code ≠ some 41006)
    (h0 : td.code ≠ some 0) :
    checkLinkStatus url env = ⟨some false, some (jsOrStr td.message "链接无效")⟩ := by
  have hb1 : (td.code == some 41003) = false := by simp [h1]
  have hb2 : (td.code == some 41006) = false := by simp [h2]
  have hb0 : (td.code != some 0) = true := by simp [h0]
  have hs2 : findShareId url.data = some pid := hs
  simp [checkLinkStatus, checkBody, hq, hs2, hu, ht, hb1, hb2, hb0]

theorem claim6_amended_witness :
    jsIncludes sampleQuarkUrl "quark.cn" = true
      ∧ findShareId sampleQuarkUrl.toList = some "abc123"
      ∧ sampleEnvDenied.urlParse = Except.ok ()
      ∧ sampleEnvDenied.tokenStep = Except.ok sampleTokenDenied
      ∧ sampleTokenDenied.code ≠ some 41003
      ∧ sampleTokenDenied.code ≠ some 41006
      ∧ sampleTokenDenied.code ≠ some 0
      ∧ checkLinkStatus sampleQuarkUrl sampleEnvDenied
        = ⟨some false, some (jsOrStr sampleTokenDenied.message "链接无效")⟩ :=
  ⟨by decide, by decide, rfl, rfl, by decide, by decide, by decide,
    claim6_amended sampleQuarkUrl sampleEnvDenied "abc123" sampleTokenDenied
      (by decide) (by decide) rfl rfl (by decide) (by decide) (by decide)⟩

/-- Claim C7: for the Baidu redirect probe, given any delivered response —
if the `Location` header is absent (empty after the default) and the status
is the success status 200 the verdict is dead ("分享已过期"); if the header
signals an error page the verdict is dead ("链接已失效"); in every other
case the verdict is live. -/
theorem claim7_baidu_redirect (url : String) (env : NetEnv) (r : BaiduResp)
    (hq : jsIncludes url "quark.cn" = false)
    (hb : (jsIncludes url "pan.baidu.com" || jsIncludes url "yun.baidu.com") = true)
    (hr : env.baiduStep = Except.ok r) :
    (r.status = 200 ∧ jsOrStr r.location "" = "" →
        checkLinkStatus url env = ⟨some false, some "分享已过期"⟩)
      ∧ (jsIncludes (jsOrStr r.location "") "error" = true →
          checkLinkStatus url env = ⟨some false, some "链接已失效"⟩)
      ∧ (¬(r.status = 200 ∧ jsOrStr r.location "" = "") →
          jsIncludes (jsOrStr r.location "") "error" = false →
          checkLinkStatus url env = ⟨some true, none⟩) := by
  refine ⟨?_, ?_, ?_⟩
  · rintro ⟨h200, hloc⟩
    simp [checkLinkStatus, checkBody, hq, hb, hr, h200, hloc]
  · intro herr
    have hne : jsOrStr r.location "" ≠ "" := by
      intro hEq
      rw [hEq] at herr
      exact absurd herr (by decide)
    have hb1 : (jsOrStr r.location "" == "") = false := by simp [hne]
    simp [checkLinkStatus, checkBody, hq, hb, hr, hb1, herr]
  · intro hnot herrf
    have hb1 : (r.status == 200 && (jsOrStr r.location "" == "")) = false := by
      by_cases hst : r.status = 200
      · by_cases hl : jsOrStr r.location "" = ""
        · exact absurd ⟨hst, hl⟩ hnot
        · simp [hl]
      · simp [hst]
    simp [checkLinkStatus, checkBody, hq, hb, hr, hb1, herrf]

theorem claim7_baidu_redirect_witness :
    jsIncludes sampleBaiduUrl "quark.cn" = false
      ∧ (jsIncludes sampleBaiduUrl "pan.baidu.com" || jsIncludes sampleBaiduUrl "yun.baidu.com")
        = true
      ∧ sampleEnvBaiduError.baiduStep = Except.ok sampleBaiduErrResp
      ∧ jsIncludes (jsOrStr sampleBaiduErrResp.location "") "error" = true
      ∧ checkLinkStatus sampleBaiduUrl sampleEnvBaiduError = ⟨some false, some "链接已失效"⟩ :=
  ⟨by decide, by decide, rfl, by decide,
    (claim7_baidu_redirect sampleBaiduUrl sampleEnvBaiduError sampleBaiduErrResp
      (by decide) (by decide) rfl).2.1 (by decide)⟩

/-- Claim C8 counterexample: with both configuration values present and the
very first source page read failing, the run logs the read error, continues
with an empty queue, and the process exits 0 — not with a non-zero exit code
as the claim asserts for a failed initial read. -/
theorem claim8_counterexample :
    runProcess (some "https://db.example") (some "service-key") [[PageRes.err]]
      MAX_LINKS_PER_RUN = ⟨0, [], true⟩ := by decide

/-- Claim C8 (amended): missing required configuration (store endpoint URL
or credential) makes the process exit 1 immediately, before any read; in
every other case the process exits 0 regardless of record outcomes — in
particular a failed source read is logged and that source is cut short, but
the run continues and still exits 0 rather than non-zero. -/
theorem claim8_amended (u k : Option String) (sources : List (List PageRes)) (cap : Nat) :
    ((jsTruthy u && jsTruthy k) = false → runProcess u k sources cap = ⟨1, [], false⟩)
      ∧ ((jsTruthy u && jsTruthy k) = true → (runProcess u k sources cap).exitCode = 0) := by
  constructor
  · intro h
    cases hu : jsTruthy u
    · simp [runProcess, hu]
    · cases hk : jsTruthy k
      · simp [runProcess, hk]
      · rw [hu, hk] at h
        simp at h
  · intro h
    simp only [Bool.and_eq_true] at h
    simp [runProcess, h.1, h.2]

theorem claim8_amended_witness :
    ((jsTruthy none && jsTruthy (some "service-key")) = false
      ∧ runProcess none (some "service-key") sampleSources MAX_LINKS_PER_RUN = ⟨1, [], false⟩)
      ∧ ((jsTruthy (some "https://db.example") && jsTruthy (some "service-key")) = true
      ∧ (runProcess (some "https://db.example") (some "service-key") sampleSources
          MAX_LINKS_PER_RUN).exitCode = 0) :=
  ⟨⟨by decide,
      (claim8_amended none (some "service-key") sampleSources MAX_LINKS_PER_RUN).1 (by decide)⟩,
    ⟨by decide,
      (claim8_amended (some "https://db.example") (some "service-key") sampleSources
        MAX_LINKS_PER_RUN).2 (by decide)⟩⟩

/-- Claim C9 counterexample: an inconclusive verdict for the xunlei platform
(permanently unsupported) leaves the breaker state completely unchanged —
xunlei has no counter at all — whereas an inconclusive verdict caused by a
transient transport failure on a tracked platform (quark) increments that
platform's counter; the two are not treated the same. -/
theorem claim9_counterexample :
    (processLink initBreaker sampleXunleiUrl sampleEnvOk false sampleRow 5).st = initBreaker
      ∧ initBreaker.counts.lookup "xunlei" = none
      ∧ (checkLinkStatus sampleXunleiUrl sampleEnvOk).valid = none
      ∧ (processLink initBreaker sampleQuarkUrl sampleEnvTokenDown false
          sampleRow 5).st.counts.lookup "quark" = some 1
      ∧ (checkLinkStatus sampleQuarkUrl sampleEnvTokenDown).valid = none :=
  ⟨by decide, by decide, by decide, by decide, by decide⟩

/-- Claim C9 (amended): an inconclusive verdict from the xunlei platform
never increments a circuit-breaker counter: the breaker counts only the
platforms present in its counter map (quark and baidu), xunlei has no entry,
so processing a xunlei record leaves the breaker state untouched and xunlei
can never trip. -/
theorem claim9_amended (st : Breaker) (url : String) (env : NetEnv) (row : Row) (now : Nat)
    (hp : getPlatform url = some "xunlei")
    (hl : st.counts.lookup "xunlei" = none)
    (hns : notSkipped st (some "xunlei") = true) :
    (processLink st url env false row now).st = st
      ∧ (checkLinkStatus url env).valid = none := by
  obtain ⟨hq, hb, hx⟩ := getPlatform_xunlei url hp
  have hres : checkLinkStatus url env = ⟨none, some "迅雷暂不支持检测"⟩ := by
    simp [checkLinkStatus, checkBody, hq, hb, hx]
  have hm : "xunlei" ∉ st.skippedPlatforms := by
    simpa [notSkipped] using hns
  constructor
  · simp [processLink, hp, hres, stepTask, hm, stepChecked, bumpPlatform, hl]
  · simp [hres]

theorem claim9_amended_witness :
    getPlatform sampleXunleiUrl = some "xunlei"
      ∧ initBreaker.counts.lookup "xunlei" = none
      ∧ notSkipped initBreaker (some "xunlei") = true
      ∧ (processLink initBreaker sampleXunleiUrl sampleEnvOk false sampleRow 6).st = initBreaker
      ∧ (checkLinkStatus sampleXunleiUrl sampleEnvOk).valid = none :=
  ⟨by decide, by decide, by decide,
    (claim9_amended initBreaker sampleXunleiUrl sampleEnvOk sampleRow 6
      (by decide) (by decide) (by decide)).1,
    (claim9_amended initBreaker sampleXunleiUrl sampleEnvOk sampleRow 6
      (by decide) (by decide) (by decide)).2⟩

end LinkChecker
